import Mathlib

/-!
Verification of the research-paper pipeline (`openAlex.py` / `searched_research.py`).

Python strings are sequences of Unicode code points, so we embed the Python
type `str` as `List Char` (`PyStr`).  The lexicographic string comparison of Python
is then the lexicographic order on `List Char` that Mathlib provides.
Network calls (the Amplify chat endpoint and the OpenAlex search endpoint)
are modelled by their observable results: a synthesis response is
`Option PyStr` (`none` when `make_llm_request` returned `None`, otherwise the
data field of the response), and a search result is a `List Work`.
-/

abbrev PyStr := List Char

/-- Python `str.strip()`: remove leading and trailing whitespace. -/
def pyStrip (s : PyStr) : PyStr :=
  ((s.dropWhile Char.isWhitespace).reverse.dropWhile Char.isWhitespace).reverse

/-- Python str.strip with the two-asterisk argument: the argument is a set of
characters, so this removes every leading and trailing asterisk, not only
paired ** markers.  Embeds the strip call at openAlex.py line 133. -/
def pyStripStar (s : PyStr) : PyStr :=
  ((s.dropWhile (· = '*')).reverse.dropWhile (· = '*')).reverse

/-- Python str.split on a newline separator: split on newlines, keeping empty
pieces, so the empty string splits into one empty piece and a trailing
newline yields a trailing empty piece. -/
def splitLines : PyStr → List PyStr
  | [] => [[]]
  | c :: rest =>
    if c = '\n' then [] :: splitLines rest
    else
      match splitLines rest with
      | l :: ls => (c :: l) :: ls
      | [] => [[c]]

/-- Python `sep.join(parts)`. -/
def pyJoin (sep : PyStr) (parts : List PyStr) : PyStr :=
  List.intercalate sep parts

/-- One line of the parsing loop of the Decomposer (openAlex.py lines 129-134):
`line.strip()`, then the regex `^\d+\.\s*(.*?)(?::.*)?$`, then
strip and the asterisk-set strip on the capture.  The regex semantics: one or
more leading digits, a literal period, greedily skipped whitespace; the lazy
capture together with the optional `(?::.*)?$` tail makes the capture
everything before the first colon (or the whole rest when no colon occurs). -/
def parse_line (line : PyStr) : Option PyStr :=
  let line := pyStrip line
  let ds := line.takeWhile Char.isDigit
  if ds.isEmpty then none
  else
    match line.drop ds.length with
    | '.' :: rest =>
      let rest := rest.dropWhile Char.isWhitespace
      let capture := rest.takeWhile (· ≠ ':')
      some (pyStripStar (pyStrip capture))
    | _ => none

/-- The Decomposer `generate_subcategories` (openAlex.py lines 107-141),
parameterised by the observable engine response: `none` models a failed
`make_llm_request`, `some data` a response whose data field is `data`.
Returns `none` both on engine failure and when no line parses. -/
def generate_subcategories (response : Option PyStr) : Option (List PyStr) :=
  match response with
  | none => none
  | some data =>
    let raw_response := pyStrip data
    let subcategories := (splitLines raw_response).filterMap parse_line
    if subcategories.isEmpty then none else some subcategories

/-- An OpenAlex work as consumed by `research_subcategory` (openAlex.py lines
162-175): the fields selected by `openalex_search` that the loop reads.
`authorships` holds the author display names; `doi` and `publication_year`
are `none` when the key is absent from the JSON object. -/
structure Work where
  title : PyStr
  authorships : List PyStr
  doi : Option PyStr
  publication_year : Option Int
deriving DecidableEq, Repr

/-- Embeds the comma-space join of the author display names, openAlex.py
line 166. -/
def author_names (w : Work) : PyStr :=
  pyJoin (", ").data w.authorships

/-- Embeds the year lookup with default rendered inside the f-string: the
placeholder n.d. is used exactly when the publication-year field is absent;
a present year is rendered in decimal. -/
def year_repr : Option Int → PyStr
  | some y => (toString y).data
  | none => ("n.d.").data

/-- The reference string built for one work, openAlex.py lines 170-172: the
author names, the year in parentheses followed by a period, the title
followed by a period, with a space and the doi appended only when the doi is
truthy, i.e. present and non-empty. -/
def ref_string (w : Work) : PyStr :=
  let base := author_names w ++ (" (").data ++ year_repr w.publication_year
      ++ (").").data ++ (" ").data ++ w.title ++ (".").data
  match w.doi with
  | some d => if d.isEmpty then base else base ++ (" ").data ++ d
  | none => base

/-- Step 2 of the Subcategory Researcher: one reference string per evidence
record, independent of the later synthesis call. -/
def extract_references (search_results : List Work) : List PyStr :=
  search_results.map ref_string

/-- Python f-string rendering of the raw doi lookup: an absent value renders
as the literal text None. -/
def doi_repr : Option PyStr → PyStr
  | some d => d
  | none => ("None").data

/-- One block of `context_data` (openAlex.py line 175). -/
def context_entry (w : Work) : PyStr :=
  ("Title: ").data ++ w.title ++ ("\nAuthors: ").data ++ author_names w
    ++ ("\nDOI: ").data ++ doi_repr w.doi ++ ("\n\n").data

/-- The accumulated `context_data` string. -/
def context_data (search_results : List Work) : PyStr :=
  (search_results.map context_entry).foldl (· ++ ·) []

/-- The synthesis prompt of openAlex.py lines 177-183. -/
def synthesis_prompt (subcategory : PyStr) (search_results : List Work) : PyStr :=
  ("Synthesize a detailed academic summary for the subtopic \x27").data
    ++ subcategory
    ++ ("\x27 using the following scholarly article metadata.\n    Trace connections between the articles and the broader subtopic.\n    Your summary must be in plain text and should not contain any in-text citations or references.\n    \n    Scholarly Article Metadata:\n    ").data
    ++ context_data search_results
    ++ ("\n    ").data

/-- `research_subcategory` (openAlex.py lines 143-202), parameterised by the
observable search result and by the Synthesis Engine, modelled as a function
from the prompt to `none` (failed request) or `some data`.  With no search
results it returns `(None, [])` before any engine call; otherwise it extracts
one reference per record, invokes the engine on the synthesis prompt, and on
engine failure returns `(None, [])` (line 202). -/
def research_subcategory (subcategory : PyStr) (search_results : List Work)
    (engine : PyStr → Option PyStr) : Option PyStr × List PyStr :=
  if search_results.isEmpty then (none, [])
  else
    let references := extract_references search_results
    match engine (synthesis_prompt subcategory search_results) with
    | some data => (some (pyStrip data), references)
    | none => (none, [])

/-- The reference-consolidation expression
`sorted(list(set(ref.strip() for ref in all_references if ref.strip())))`
shared by `generate_txt_document` (line 240), `generate_markdown_document`
(line 282) and `generate_docx_document` (line 364): trim, drop entries that
are empty after trimming, deduplicate, sort ascending.  The Python builtin sorted applied to
the distinct elements of a set is modelled by `insertionSort` on the
lexicographic order after `dedup`; the resulting list is uniquely determined
by the element set. -/
def consolidate (all_references : List PyStr) : List PyStr :=
  (((all_references.map pyStrip).filter (fun r => !r.isEmpty)).dedup).insertionSort (· ≤ ·)

/-- `generate_markdown_document` (openAlex.py lines 252-293), parameterised
by the coalescing engine response; the return value is the content written to
the output file (`none` when no file is written: engine failure or empty
paper). -/
def generate_markdown_document (response : Option PyStr) (all_references : List PyStr) :
    Option PyStr :=
  match response with
  | none => none
  | some markdown_paper =>
    if markdown_paper.isEmpty then none
    else
      let unique_references := consolidate all_references
      let references_markdown := ("\n\n## References\n\n").data
        ++ pyJoin ("\n").data (unique_references.map (fun ref => ("- ").data ++ ref))
      some (markdown_paper ++ references_markdown)

/-- `generate_txt_document` (openAlex.py lines 204-250), same conventions. -/
def generate_txt_document (response : Option PyStr) (all_references : List PyStr) :
    Option PyStr :=
  match response with
  | none => none
  | some plain_text_paper =>
    if plain_text_paper.isEmpty then none
    else
      let unique_references := consolidate all_references
      some (plain_text_paper ++ ("\n\nReferences\n\n").data
        ++ pyJoin ("\n").data unique_references)

/-- Truthiness of the narrative in the loop of `main` (the truthiness test on the narrative,
openAlex.py line 416): the subcategory counts as successful exactly when the
researcher returned a present, non-empty narrative. -/
def narrative_ok (r : Option PyStr × List PyStr) : Bool :=
  match r.1 with
  | some t => !t.isEmpty
  | none => false

/-- The Step-2 accumulation loop of `main` (openAlex.py lines 412-418):
per-subcategory results are appended in order, and a subcategory contributes
its narrative and references exactly when its narrative is truthy. -/
def research_loop (res : PyStr → Option PyStr × List PyStr) :
    List PyStr → List PyStr × List PyStr
  | [] => ([], [])
  | s :: rest =>
    let r := res s
    let acc := research_loop res rest
    if narrative_ok r then ((r.1.getD []) :: acc.1, r.2 ++ acc.2)
    else acc

/-! ### Helper lemmas -/

/-- Left-stripping a right-stripped, already left-stripped list changes
nothing: the head survives right-stripping and still fails the predicate. -/
theorem dropWhile_rdropWhile {α : Type} (p : α → Bool) (t : List α)
    (ht : t.dropWhile p = t) :
    (t.rdropWhile p).dropWhile p = t.rdropWhile p := by
  cases hu : t.rdropWhile p with
  | nil => rfl
  | cons b v =>
    obtain ⟨w, hw⟩ := List.rdropWhile_prefix p t
    rw [hu, List.cons_append] at hw
    subst hw
    rw [List.dropWhile_eq_self_iff] at ht
    have hb : ¬ p b := by simpa using ht (by simp)
    simp [List.dropWhile_cons, hb]

/-- Unfolding `pyStrip` through the Mathlib right-strip. -/
theorem pyStrip_eq_rdropWhile (s : PyStr) :
    pyStrip s = (s.dropWhile Char.isWhitespace).rdropWhile Char.isWhitespace := rfl

/-- Stripping is idempotent. -/
theorem pyStrip_idem (s : PyStr) : pyStrip (pyStrip s) = pyStrip s := by
  rw [pyStrip_eq_rdropWhile s, pyStrip_eq_rdropWhile,
    dropWhile_rdropWhile _ _ (List.dropWhile_idempotent _ _),
    List.rdropWhile_idempotent]

/-- Membership in the consolidated reference list. -/
theorem consolidate_mem (xs : List PyStr) (s : PyStr) :
    s ∈ consolidate xs ↔ (∃ r ∈ xs, pyStrip r = s) ∧ s ≠ [] := by
  simp [consolidate, List.mem_filter, List.isEmpty_iff, and_assoc]

/-- The consolidated reference list has no duplicates. -/
theorem consolidate_nodup (xs : List PyStr) : (consolidate xs).Nodup :=
  ((List.perm_insertionSort _ _).nodup_iff).mpr (List.nodup_dedup _)

/-- The consolidated reference list is sorted. -/
theorem consolidate_sorted (xs : List PyStr) :
    (consolidate xs).Sorted (· ≤ ·) :=
  List.sorted_insertionSort _ _

/-- Consolidation fixes any sorted duplicate-free list of stripped non-empty
strings. -/
theorem consolidate_eq_self (l : List PyStr)
    (h : ∀ s ∈ l, pyStrip s = s ∧ s ≠ [])
    (hn : l.Nodup) (hs : l.Sorted (· ≤ ·)) : consolidate l = l := by
  have e : consolidate l
      = ((l.map pyStrip).filter (fun r => !r.isEmpty)).dedup.insertionSort (· ≤ ·) := rfl
  have h1 : l.map pyStrip = l := by
    conv_rhs => rw [← l.map_id]
    exact List.map_congr_left (fun a ha => (h a ha).1)
  have h2 : l.filter (fun r => !r.isEmpty) = l :=
    List.filter_eq_self.mpr (fun a ha => by
      simpa [List.isEmpty_iff] using (h a ha).2)
  rw [e, h1, h2, List.dedup_eq_self.mpr hn]
  exact hs.insertionSort_eq

/-! ### The claims -/

/-- C2: the Decomposer parser, on the four-line engine response with a
colon clause, an emphasised entry, a non-matching line and a plain entry,
returns exactly the three labels Foo, Baz, Qux in order. -/
theorem c2_decomposer_parse_example :
    generate_subcategories (some ("1. Foo: bar\n2. **Baz**\nnot a line\n3. Qux").data)
      = some [("Foo").data, ("Baz").data, ("Qux").data] := by decide

/-- C3: consolidation trims every entry, discards entries empty after
trimming, deduplicates, and returns the remaining strings sorted ascending;
and the concrete dedup example from the spec evaluates as stated. -/
theorem c3_consolidate_spec (xs : List PyStr) :
    ((consolidate xs).Sorted (· ≤ ·) ∧ (consolidate xs).Nodup ∧
      ∀ s, (s ∈ consolidate xs ↔ (∃ r ∈ xs, pyStrip r = s) ∧ s ≠ [])) ∧
    consolidate [("A. 2020. T.").data, (" A. 2020. T. ").data, ("B. 2019. U.").data]
      = [("A. 2020. T.").data, ("B. 2019. U.").data] :=
  ⟨⟨consolidate_sorted xs, consolidate_nodup xs, fun s => consolidate_mem xs s⟩,
    by decide⟩

/-- C4: reference consolidation is idempotent. -/
theorem c4_consolidate_idempotent (X : List PyStr) :
    consolidate (consolidate X) = consolidate X := by
  apply consolidate_eq_self
  · intro s hs
    obtain ⟨⟨r, _, hrs⟩, hne⟩ := (consolidate_mem X s).mp hs
    exact ⟨by rw [← hrs, pyStrip_idem], hne⟩
  · exact consolidate_nodup X
  · exact consolidate_sorted X

/-- C5: with an empty evidence result the researcher returns the pair of
none and the empty list at once, and the outcome does not depend on the
Synthesis Engine at all. -/
theorem c5_empty_search_short_circuit (subcategory : PyStr)
    (engine1 engine2 : PyStr → Option PyStr) :
    research_subcategory subcategory [] engine1 = (none, []) ∧
    research_subcategory subcategory [] engine1
      = research_subcategory subcategory [] engine2 :=
  ⟨rfl, rfl⟩

/-- C10: the cleanup strips every leading and trailing asterisk, and a
numbered line with empty or all-asterisk content yields an empty label that
still counts toward a successful decomposition. -/
theorem c10_empty_labels_count :
    parse_line ("1. ").data = some [] ∧
    parse_line ("1. **").data = some [] ∧
    generate_subcategories (some ("1. **").data) = some [[]] ∧
    generate_subcategories (some ("1. ").data) = some [[]] ∧
    parse_line ("1. ***Foo*").data = some ("Foo").data := by decide

/-- Unfolding of the Decomposer on a successful engine response. -/
theorem generate_subcategories_eq (raw : PyStr) :
    generate_subcategories (some raw)
      = if ((splitLines (pyStrip raw)).filterMap parse_line).isEmpty then none
        else some ((splitLines (pyStrip raw)).filterMap parse_line) := rfl

/-- C6: on a successful engine response the Decomposer fails exactly when no
line matches the numbered pattern, success always carries at least one
parsed label and exactly the matched lines, and no upper bound is enforced:
six numbered lines yield all six labels. -/
theorem c6_zero_match_failure (raw : PyStr) :
    (generate_subcategories (some raw) = none ↔
      ∀ line ∈ splitLines (pyStrip raw), parse_line line = none) ∧
    (∀ l, generate_subcategories (some raw) = some l →
      l = (splitLines (pyStrip raw)).filterMap parse_line ∧ l ≠ []) ∧
    generate_subcategories (some ("1. A\n2. B\n3. C\n4. D\n5. E\n6. F").data)
      = some [("A").data, ("B").data, ("C").data, ("D").data, ("E").data, ("F").data] := by
  refine ⟨?_, ?_, by decide⟩
  · rw [generate_subcategories_eq]
    by_cases h : ((splitLines (pyStrip raw)).filterMap parse_line).isEmpty
    · rw [if_pos h]
      simpa [List.isEmpty_iff, List.filterMap_eq_nil_iff] using h
    · rw [if_neg h]
      constructor
      · intro hcontra
        exact absurd hcontra (by simp)
      · intro hall
        exact absurd (List.filterMap_eq_nil_iff.mpr hall)
          (by simpa [List.isEmpty_iff] using h)
  · intro l hl
    rw [generate_subcategories_eq] at hl
    by_cases h : ((splitLines (pyStrip raw)).filterMap parse_line).isEmpty
    · rw [if_pos h] at hl
      cases hl
    · rw [if_neg h] at hl
      injection hl with hl2
      subst hl2
      exact ⟨rfl, by simpa [List.isEmpty_iff] using h⟩

/-- Closed form of the Step-2 accumulation loop: exactly the subcategories
with truthy narrative contribute, in order. -/
theorem research_loop_eq (res : PyStr → Option PyStr × List PyStr)
    (subs : List PyStr) :
    research_loop res subs
      = ((subs.filter (fun s => narrative_ok (res s))).map (fun s => (res s).1.getD []),
         (subs.filter (fun s => narrative_ok (res s))).flatMap (fun s => (res s).2)) := by
  induction subs with
  | nil => rfl
  | cons s rest ih =>
    cases h : narrative_ok (res s) <;>
      simp [research_loop, h, List.filter_cons, ih]

/-- C7: a failed subcategory is skipped and the loop continues; the run
aborts at this stage exactly when every subcategory fails, and the
accumulated references come only from subcategories with a non-empty
narrative. -/
theorem c7_loop_swallows_failures (res : PyStr → Option PyStr × List PyStr)
    (subs : List PyStr) :
    (research_loop res subs).1
        = (subs.filter (fun s => narrative_ok (res s))).map (fun s => (res s).1.getD []) ∧
    (research_loop res subs).2
        = (subs.filter (fun s => narrative_ok (res s))).flatMap (fun s => (res s).2) ∧
    ((research_loop res subs).1 = [] ↔ ∀ s ∈ subs, narrative_ok (res s) = false) := by
  rw [research_loop_eq]
  refine ⟨rfl, rfl, ?_⟩
  simp [List.filter_eq_nil_iff]

/-- C8: for the md format, with a successful non-empty coalesced body, the
file content is the body, then the References heading, then one dash bullet
per consolidated reference; the consolidated list is sorted and
duplicate-free, and the references come after the entire body. -/
theorem c8_markdown_layout (body : PyStr) (refs : List PyStr) (h : body ≠ []) :
    generate_markdown_document (some body) refs
      = some (body ++ ("\n\n## References\n\n").data
          ++ pyJoin ("\n").data ((consolidate refs).map (fun ref => ("- ").data ++ ref)))
      ∧ (consolidate refs).Sorted (· ≤ ·) ∧ (consolidate refs).Nodup := by
  refine ⟨?_, consolidate_sorted refs, consolidate_nodup refs⟩
  have e : generate_markdown_document (some body) refs
      = if body.isEmpty then none
        else some (body ++ (("\n\n## References\n\n").data
          ++ pyJoin ("\n").data ((consolidate refs).map (fun ref => ("- ").data ++ ref)))) := rfl
  rw [e, if_neg (by simpa [List.isEmpty_iff] using h), List.append_assoc]

theorem c8_markdown_layout_witness :
    generate_markdown_document (some ("P").data) [("b").data, ("a").data]
      = some (("P").data ++ ("\n\n## References\n\n").data
          ++ pyJoin ("\n").data ((consolidate [("b").data, ("a").data]).map
              (fun ref => ("- ").data ++ ref)))
      ∧ (consolidate [("b").data, ("a").data]).Sorted (· ≤ ·)
      ∧ (consolidate [("b").data, ("a").data]).Nodup :=
  c8_markdown_layout ("P").data [("b").data, ("a").data] (by decide)

/-- A concrete evidence record used for closed instances. -/
def sampleWork : Work :=
  ⟨("Deep Learning").data, [("A. Smith").data, ("B. Jones").data],
    some ("https://doi.org/10.1/x").data, some 2020⟩

/-- C9: exactly one reference string is extracted per evidence record,
deterministically in the stated format, and the extraction does not depend
on the synthesis outcome; on a successful synthesis the researcher returns
exactly these references. -/
theorem c9_reference_extraction (search_results : List Work) (subcategory body : PyStr)
    (w : Work) (h : ¬search_results.isEmpty) :
    (research_subcategory subcategory search_results (fun _ => some body)).2
        = extract_references search_results ∧
    extract_references search_results = search_results.map ref_string ∧
    (extract_references search_results).length = search_results.length ∧
    ref_string w
      = author_names w ++ (" (").data ++ year_repr w.publication_year ++ (").").data
          ++ (" ").data ++ w.title ++ (".").data
          ++ (match w.doi with
              | some d => if d.isEmpty then [] else (" ").data ++ d
              | none => []) := by
  refine ⟨?_, rfl, by simp [extract_references], ?_⟩
  · have e : research_subcategory subcategory search_results (fun _ => some body)
        = if search_results.isEmpty then (none, [])
          else (some (pyStrip body), extract_references search_results) := rfl
    rw [e, if_neg (by simpa using h)]
  · cases hd : w.doi with
    | none => simp [ref_string, hd]
    | some d =>
      by_cases hde : d.isEmpty <;> simp [ref_string, hd, hde, List.append_assoc]

theorem c9_reference_extraction_witness :
    (research_subcategory ("S").data [sampleWork] (fun _ => some ("B").data)).2
        = extract_references [sampleWork] ∧
    extract_references [sampleWork] = [sampleWork].map ref_string ∧
    (extract_references [sampleWork]).length = [sampleWork].length ∧
    ref_string sampleWork
      = author_names sampleWork ++ (" (").data ++ year_repr sampleWork.publication_year
          ++ (").").data ++ (" ").data ++ sampleWork.title ++ (".").data
          ++ (match sampleWork.doi with
              | some d => if d.isEmpty then [] else (" ").data ++ d
              | none => []) :=
  c9_reference_extraction [sampleWork] ("S").data ("B").data sampleWork (by decide)

/-- C1 counterexample: with one evidence record and a failing synthesis
engine, the researcher returns none with the empty reference list, not the
non-empty list of references extracted in Step 2. -/
theorem c1_counterexample_refs_discarded :
    research_subcategory ("S").data [sampleWork] (fun _ => none) = (none, []) ∧
    extract_references [sampleWork] ≠ [] ∧
    research_subcategory ("S").data [sampleWork] (fun _ => none)
      ≠ (none, extract_references [sampleWork]) := by
  refine ⟨rfl, by decide, by decide⟩

/-- C1 amended: when the synthesis call fails, the researcher returns none
with the empty reference list — the references extracted in Step 2 are
discarded, not returned. -/
theorem c1_amended_synthesis_failure (subcategory : PyStr) (search_results : List Work)
    (engine : PyStr → Option PyStr)
    (h : engine (synthesis_prompt subcategory search_results) = none) :
    research_subcategory subcategory search_results engine = (none, []) := by
  have e : research_subcategory subcategory search_results engine
      = if search_results.isEmpty then (none, [])
        else match engine (synthesis_prompt subcategory search_results) with
          | some data => (some (pyStrip data), extract_references search_results)
          | none => (none, []) := rfl
  rw [e, h]
  split <;> rfl

theorem c1_amended_witness :
    research_subcategory ("S").data [sampleWork] (fun _ => none) = (none, []) :=
  c1_amended_synthesis_failure ("S").data [sampleWork] (fun _ => none) rfl

theorem c6_zero_match_failure_witness :
    generate_subcategories (some ("1. A\n2. B\n3. C\n4. D\n5. E\n6. F").data)
      = some [("A").data, ("B").data, ("C").data, ("D").data, ("E").data, ("F").data] :=
  (c6_zero_match_failure []).2.2

theorem c7_loop_swallows_failures_witness :
    (research_loop (fun _ => ((none : Option PyStr), ([] : List PyStr)))
        [("a").data]).1 = [] :=
  ((c7_loop_swallows_failures (fun _ => (none, [])) [("a").data]).2.2).mpr
    (fun _ _ => rfl)
